import Mathlib

/-!
Verification development for the `oxide` shell repository.

The definitions below are a shallow embedding of the Rust sources:
`src/shellenv.rs` (shell environment), `src/builtin.rs` (builtins,
`test`/`[` evaluator, `echo`, `cd`), `src/execute/subshell.rs`
(subshell executor) and `src/comp.rs` (line-editor validator).
Operating-system effects (chdir, fork, execve, stat, file writes) are
made explicit: fallible OS calls become parameters or oracle records,
and process-level control flow becomes explicit event traces.
-/

/-! ## String helpers shared by the embedding -/

/-- Rust `value.trim_matches(|ch| ch == '"')`: remove every leading and
trailing double-quote character (used by `export_variable`). -/
def trimQuotes (s : String) : String :=
  String.mk (((s.data.dropWhile (fun c => c = '"')).reverse.dropWhile
    (fun c => c = '"')).reverse)

/-- Rust `strip_prefix('"')` then `strip_suffix('"')` guarded by
`starts_with && ends_with`, as in `set_alias` (`src/shellenv.rs:292-295`).
(On the one-character string `"` the Rust code would panic on the
`unwrap`; here that input yields the empty string.) -/
def stripQuotePair (s : String) : String :=
  if s.startsWith "\"" && s.endsWith "\"" then (s.drop 1).dropRight 1 else s

/-! ## Association-list maps standing in for `HashMap` -/

/-- Lookup in an association list (`HashMap::get`). -/
def lookupA {α : Type} : List (String × α) → String → Option α
  | [], _ => none
  | (a, b) :: t, k => if a = k then some b else lookupA t k

/-- Removal from an association list (`HashMap::remove`). -/
def eraseA {α : Type} : List (String × α) → String → List (String × α)
  | [], _ => []
  | (a, b) :: t, k => if a = k then eraseA t k else (a, b) :: eraseA t k

/-- Insertion into an association list (`HashMap::insert`): the new
binding shadows and removes any previous binding of the key. -/
def insertA {α : Type} (m : List (String × α)) (k : String) (v : α) :
    List (String × α) :=
  (k, v) :: eraseA m k

/-! ## The shell environment (`src/shellenv.rs`) -/

/-- The `EnvFlags` bitset of `src/shellenv.rs:20-35`, one Boolean per bit. -/
structure EnvFlags where
  noAlias : Bool := false
  noVar : Bool := false
  noFunc : Bool := false
  inFunc : Bool := false
  loginShell : Bool := false
  interactive : Bool := false
  clean : Bool := false
  noRc : Bool := false
  deriving DecidableEq, Repr

/-- Parsed nodes are opaque to the engine; only identity matters for the
alias/function stores. -/
inductive Node where
  | mk (id : Nat)
  deriving DecidableEq, Repr

/-- The error type of `src/event.rs` as used by `src/shellenv.rs`
(`from_execf` and `from_parse`; spans are dropped). -/
inductive ShellError where
  | execFail (msg : String) (code : Nat)
  | parseErr (msg : String)
  deriving DecidableEq, Repr

/-- The `ShellEnv` struct of `src/shellenv.rs:37-48` (the `shopts`,
`open_fds` and `last_input` fields are carried but unused by the claims). -/
structure ShellEnv where
  flags : EnvFlags
  env_vars : List (String × String)
  «variables» : List (String × String)
  aliases : List (String × String)
  shopts : List (String × Nat)
  functions : List (String × Node)
  parameters : List (String × String)
  open_fds : List Int
  last_input : Option String
  deriving DecidableEq, Repr

/-- `get_variable` (`src/shellenv.rs:227-235`): consult `variables`, then
`env_vars`, then `parameters`. -/
def ShellEnv.get_variable (env : ShellEnv) (key : String) : Option String :=
  match lookupA env.variables key with
  | some v => some v
  | none =>
    match lookupA env.env_vars key with
    | some v => some v
    | none => lookupA env.parameters key

/-- `export_variable` (`src/shellenv.rs:265-274`): quote-trim the value;
the empty value deletes the key from both stores, otherwise the key is
written to both stores. -/
def ShellEnv.export_variable (env : ShellEnv) (key value : String) :
    ShellEnv :=
  let value := trimQuotes value
  if value = "" then
    { env with
      «variables» := eraseA env.variables key
      env_vars := eraseA env.env_vars key }
  else
    { env with
      «variables» := insertA env.variables key value
      env_vars := insertA env.env_vars key value }

/-- `remove_variable` (`src/shellenv.rs:276-278`): delete from the
shell-local `variables` store only. -/
def ShellEnv.remove_variable (env : ShellEnv) (key : String) : ShellEnv :=
  { env with «variables» := eraseA env.variables key }

/-- `get_alias` (`src/shellenv.rs:281-286`): hidden entirely while the
`NO_ALIAS` flag is set. -/
def ShellEnv.get_alias (env : ShellEnv) (key : String) : Option String :=
  if env.flags.noAlias then none else lookupA env.aliases key

/-- `get_function` (`src/shellenv.rs:305-307`): plain lookup, no flag
check. -/
def ShellEnv.get_function (env : ShellEnv) (name : String) : Option Node :=
  lookupA env.functions name

/-- `set_alias` (`src/shellenv.rs:288-298`): fails when the name is a
function; strips one surrounding quote pair from the value. The Rust
error type is `String`. -/
def ShellEnv.set_alias (env : ShellEnv) (key value : String) :
    Except String ShellEnv :=
  if (env.get_function key).isSome then
    .error ("The name `" ++ key ++ "` is already being used as a function")
  else
    .ok { env with aliases := insertA env.aliases key (stripQuotePair value) }

/-- `set_function` (`src/shellenv.rs:309-315`): fails when the name is an
alias — but the alias lookup goes through `get_alias`, which consults the
`NO_ALIAS` flag. -/
def ShellEnv.set_function (env : ShellEnv) (name : String) (body : Node) :
    Except ShellError ShellEnv :=
  if (env.get_alias name).isSome then
    .error (.parseErr
      ("The name `" ++ name ++ "` is already being used as an alias"))
  else
    .ok { env with functions := insertA env.functions name body }

/-- `change_dir` (`src/shellenv.rs:193-204`). The OS call
`env::set_current_dir` is a parameter: `some newDir` means the chdir
succeeded and the canonicalized current directory is `newDir`; `none`
means it failed. The Rust method mutates `self` and returns a `Result`,
so the embedding returns the result together with the environment left
behind. Note the source removes `PWD` and exports `OLDPWD` *before*
attempting the chdir. -/
def ShellEnv.change_dir (env : ShellEnv) (chdirResult : Option String) :
    Except ShellError Unit × ShellEnv :=
  let old_pwd := (lookupA env.env_vars "PWD").getD ""
  let env1 := { env with env_vars := eraseA env.env_vars "PWD" }
  let env2 := env1.export_variable "OLDPWD" old_pwd
  match chdirResult with
  | some newDir => (.ok (), env2.export_variable "PWD" newDir)
  | none => (.error (.execFail "chdir failed" 1), env2)

/-! ## Alias/function operation sequences (for the disjointness claim) -/

/-- One alias- or function-defining operation. -/
inductive EnvOp where
  | setAlias (key value : String)
  | setFunc (name : String) (body : Node)
  deriving DecidableEq, Repr

/-- Apply one operation; a failing operation leaves the environment
unchanged, exactly as the Rust methods return `Err` before mutating. -/
def applyOp (env : ShellEnv) (op : EnvOp) : ShellEnv :=
  match op with
  | .setAlias k v =>
    match env.set_alias k v with
    | .ok e => e
    | .error _ => env
  | .setFunc n b =>
    match env.set_function n b with
    | .ok e => e
    | .error _ => env

/-- Apply a sequence of operations left to right. -/
def applyOps (env : ShellEnv) (ops : List EnvOp) : ShellEnv :=
  ops.foldl applyOp env

/-- Decidable statement that no name is simultaneously an alias and a
function: every key bound in `aliases` is unbound in `functions`. -/
def disjointNames (env : ShellEnv) : Bool :=
  env.aliases.all (fun p => (lookupA env.functions p.1).isNone)

/-! ## Concrete sample environments used by counterexamples/witnesses -/

/-- An empty environment with all flags clear. -/
def env0 : ShellEnv :=
  { flags := {}
    env_vars := []
    «variables» := []
    aliases := []
    shopts := []
    functions := []
    parameters := []
    open_fds := [0, 1, 2]
    last_input := none }

/-- Environment whose `NO_ALIAS` flag is set and which holds the alias
`x`. -/
def envNoAlias : ShellEnv :=
  { env0 with flags := { noAlias := true }, aliases := [("x", "y")] }

/-- Environment with `PWD=/home/u` and `OLDPWD=/old` in `env_vars`. -/
def envPwd : ShellEnv :=
  { env0 with env_vars := [("PWD", "/home/u"), ("OLDPWD", "/old")] }

/-- Environment with the positional parameter `1=arg` and a shell
variable `1=v`. -/
def envParam : ShellEnv :=
  { env0 with parameters := [("1", "arg")], «variables» := [("1", "v")] }

/-! ## The `test`/`[` evaluator (`src/builtin.rs:53-202`) -/

/-- The low error variants of `src/error.rs` used by the `test`
evaluator: `ExecFailed` and `InvalidSyntax`. -/
inductive LashErrLow where
  | ExecFailed (msg : String)
  | InvalidSyntax (msg : String)
  deriving DecidableEq, Repr

/-- The slice of `fs::Metadata` consulted by the `test` builtin. -/
structure FileMeta where
  isBlock : Bool := false
  isChar : Bool := false
  isDir : Bool := false
  isFile : Bool := false
  isSymlink : Bool := false
  isFifo : Bool := false
  isSocket : Bool := false
  mode : Nat := 0
  gid : Nat := 0
  uid : Nat := 0
  mtime : Int := 0
  atime : Int := 0
  len : Nat := 0
  dev : Nat := 0
  deriving DecidableEq, Repr

/-- The operating-system facts `test` consults: `isatty`,
`fs::metadata` (`none` models the error case), `Path::exists`,
`access(2)` and the effective gid/uid. -/
structure TestOracle where
  isatty : Int → Bool
  meta : String → Option FileMeta
  pathExists : String → Bool
  accessR : String → Bool
  accessW : String → Bool
  accessX : String → Bool
  egid : Nat := 0
  euid : Nat := 0

/-- Rust `str::parse::<i32>()`: optional sign, decimal digits, value
within the `i32` range. -/
def parseI32 (s : String) : Option Int :=
  match s.data with
  | [] => none
  | c :: cs =>
    let (sign, digits) : Int × List Char :=
      if c = '+' then (1, cs) else if c = '-' then (-1, cs) else (1, c :: cs)
    if digits.isEmpty then none
    else if digits.all Char.isDigit then
      let n : Nat := digits.foldl (fun acc d => acc * 10 + (d.toNat - 48)) 0
      let v : Int := sign * (n : Int)
      if -2147483648 ≤ v ∧ v ≤ 2147483647 then some v else none
    else none

/-- The `to_int` closure (`src/builtin.rs:97-99`). -/
def to_int (s : String) : Except LashErrLow Int :=
  match parseI32 s with
  | some n => .ok n
  | none => .error (.InvalidSyntax "Expected an integer for this test flag")

/-- The `is_int` closure (`src/builtin.rs:96`). -/
def is_int (s : String) : Bool :=
  (parseI32 s).isSome

/-- The `to_meta` closure (`src/builtin.rs:101-103`). -/
def to_meta (o : TestOracle) (s : String) : Except LashErrLow FileMeta :=
  match o.meta s with
  | some m => .ok m
  | none => .error (.InvalidSyntax "Invalid path used in test")

/-- The `str_no_op` closure (`src/builtin.rs:104`). -/
def str_no_op (s : String) : Except LashErrLow String :=
  .ok s

/-- The `is_path` closure (`src/builtin.rs:100`). -/
def is_path (o : TestOracle) (s : String) : Bool :=
  o.pathExists s

/-- `run_test` (`src/builtin.rs:53-63`): a missing operand is an
`ExecFailed` error; a failed conversion yields `false`. -/
def run_test {T : Type} (arg : Option String)
    (alter : String → Except LashErrLow T) (check : T → Bool) :
    Except LashErrLow Bool :=
  match arg with
  | none => .error (.ExecFailed "Missing operand in this test call")
  | some a =>
    match alter a with
    | .error _ => .ok false
    | .ok t => .ok (check t)

/-- `do_cmp` (`src/builtin.rs:65-76`): a missing right operand is an
`ExecFailed` error; a failed conversion of either side yields `false`. -/
def do_cmp {T : Type} (lhs : String) (rhs : Option String)
    (alter : String → Except LashErrLow T) (cmp : T → T → Bool) :
    Except LashErrLow Bool :=
  match rhs with
  | none => .error (.ExecFailed "Missing operand in this test call")
  | some r =>
    match alter lhs, alter r with
    | .ok a, .ok b => .ok (cmp a b)
    | .error _, _ => .ok false
    | _, .error _ => .ok false

/-- The tail of each `test` frame (`src/builtin.rs:186-199`),
parameterized by the recursive evaluator that `do_log_op`
(`src/builtin.rs:78-86`) invokes. The token list is kept in pop order:
its head is the element `Vec::pop` removes (the leftmost unread word of
the prepared argument vector), so `test_call.last()` is the head. After
the running result is computed, the next word is popped; `-a` with a
false running result and `-o` with a true one return at once, leaving
the remaining words unevaluated; any other word is a syntax error. -/
def testTailF (recur : List String → Except LashErrLow Bool × List String)
    (res : Bool) (rem : List String) :
    Except LashErrLow Bool × List String :=
  match rem with
  | [] => (.ok res, [])
  | w :: rest2 =>
    if w = "-a" && !res then (.ok res, rest2)
    else if w = "-o" && res then (.ok res, rest2)
    else if w = "-a" || w = "-o" then
      match recur rest2 with
      | (.error e, rem2) => (.error e, rem2)
      | (.ok b, rem2) =>
        (.ok (if w = "-a" then res && b else res || b), rem2)
    else (.error (.InvalidSyntax "Unexpected extra argument found in test call"),
      rest2)

/-- The `test` builtin (`src/builtin.rs:90-202`) over the prepared
argument vector, in pop order (head = next popped word, so the Rust
`first()` is the last element here and `last()` is the head). The `Nat`
argument is recursion fuel, consumed once per `test` frame; the
top-level wrapper `testEval` supplies more fuel than there are words, so
the fuel-exhaustion branch is unreachable. Returns the result together
with the words left unconsumed in the shared vector. -/
def testGo (o : TestOracle) : Nat → List String →
    Except LashErrLow Bool × List String
  | 0 => fun l => (.ok false, l)
  | fuel + 1 => fun args =>
    let l := if args.getLast? = some "]" then args.dropLast else args
    match l with
    | [] => (.ok false, [])
    | arg :: rest =>
      let step : Except LashErrLow Bool × List String :=
        match arg with
        | "!" =>
          match testGo o fuel rest with
          | (.error e, rem) => (.error e, rem)
          | (.ok b, rem) => (.ok (!b), rem)
        | "-t" => (run_test rest.head? to_int (fun i => o.isatty i), rest.drop 1)
        | "-b" => (run_test rest.head? (to_meta o) (fun m => m.isBlock), rest.drop 1)
        | "-c" => (run_test rest.head? (to_meta o) (fun m => m.isChar), rest.drop 1)
        | "-d" => (run_test rest.head? (to_meta o) (fun m => m.isDir), rest.drop 1)
        | "-f" => (run_test rest.head? (to_meta o) (fun m => m.isFile), rest.drop 1)
        | "-g" => (run_test rest.head? (to_meta o)
            (fun m => decide ((m.mode &&& 0o2000) ≠ 0)), rest.drop 1)
        | "-G" => (run_test rest.head? (to_meta o)
            (fun m => decide (m.gid = o.egid)), rest.drop 1)
        | "-h" => (run_test rest.head? (to_meta o) (fun m => m.isSymlink), rest.drop 1)
        | "-L" => (run_test rest.head? (to_meta o) (fun m => m.isSymlink), rest.drop 1)
        | "-k" => (run_test rest.head? (to_meta o)
            (fun m => decide ((m.mode &&& 0o1000) ≠ 0)), rest.drop 1)
        | "-N" => (run_test rest.head? (to_meta o)
            (fun m => decide (m.mtime > m.atime)), rest.drop 1)
        | "-O" => (run_test rest.head? (to_meta o)
            (fun m => decide (m.uid = o.euid)), rest.drop 1)
        | "-p" => (run_test rest.head? (to_meta o) (fun m => m.isFifo), rest.drop 1)
        | "-s" => (run_test rest.head? (to_meta o)
            (fun m => decide (m.len > 0)), rest.drop 1)
        | "-S" => (run_test rest.head? (to_meta o) (fun m => m.isSocket), rest.drop 1)
        | "-u" => (run_test rest.head? (to_meta o)
            (fun m => decide ((m.mode &&& 0o4000) ≠ 0)), rest.drop 1)
        | "-n" => (run_test rest.head? str_no_op
            (fun st => !st.isEmpty), rest.drop 1)
        | "-z" => (run_test rest.head? str_no_op
            (fun st => st.isEmpty), rest.drop 1)
        | "-e" => (run_test rest.head? str_no_op
            (fun st => o.pathExists st), rest.drop 1)
        | "-r" => (run_test rest.head? str_no_op
            (fun st => o.accessR st), rest.drop 1)
        | "-w" => (run_test rest.head? str_no_op
            (fun st => o.accessW st), rest.drop 1)
        | "-x" => (run_test rest.head? str_no_op
            (fun st => o.accessX st), rest.drop 1)
        | _ =>
          if is_int arg then
            match rest with
            | [] =>
              (.error (.InvalidSyntax
                "Expected a comparison flag after integer in test call"), [])
            | cmp :: rest2 =>
              match cmp with
              | "-eq" => (do_cmp arg rest2.head? to_int
                  (fun a b => decide (a = b)), rest2.drop 1)
              | "-ge" => (do_cmp arg rest2.head? to_int
                  (fun a b => decide (a ≥ b)), rest2.drop 1)
              | "-gt" => (do_cmp arg rest2.head? to_int
                  (fun a b => decide (a > b)), rest2.drop 1)
              | "-le" => (do_cmp arg rest2.head? to_int
                  (fun a b => decide (a ≤ b)), rest2.drop 1)
              | "-lt" => (do_cmp arg rest2.head? to_int
                  (fun a b => decide (a < b)), rest2.drop 1)
              | "-ne" => (do_cmp arg rest2.head? to_int
                  (fun a b => decide (a ≠ b)), rest2.drop 1)
              | _ =>
                (.error (.InvalidSyntax
                  "Expected an integer after comparison flag in test call"),
                  rest2)
          else if is_path o arg &&
              (match rest.head? with
               | some c => c = "-ef" || c = "nt" || c = "-ot"
               | none => false) then
            match rest with
            | cmp :: rest2 =>
              match cmp with
              | "-ef" => (do_cmp cmp rest2.head? (to_meta o)
                  (fun a b => decide (a.dev = b.dev)), rest2.drop 1)
              | "-nt" => (do_cmp cmp rest2.head? (to_meta o)
                  (fun a b => decide (a.mtime > b.mtime)), rest2.drop 1)
              | "-ot" => (do_cmp cmp rest2.head? (to_meta o)
                  (fun a b => decide (a.mtime < b.mtime)), rest2.drop 1)
              -- the guard also admits the undashed word "nt", on which the
              -- Rust match arm is `unreachable!()` and panics
              | _ => (.ok false, rest2)
            | [] => (.ok false, [])
          else
            match rest with
            | [] => (.ok (!(arg = "")), [])
            | a :: rest2 =>
              if arg = "=" then
                if a = "-o" || a = "-a" then (.ok true, a :: rest2)
                else (.ok false, rest2)
              else
                match a with
                | "=" => (do_cmp arg rest2.head? str_no_op
                    (fun x y => decide (x = y)), rest2.drop 1)
                | "!=" => (do_cmp arg rest2.head? str_no_op
                    (fun x y => decide (x ≠ y)), rest2.drop 1)
                | "==" =>
                  (.error (.InvalidSyntax
                    "'==' is not a valid comparison operator for test calls. Use '=' instead."),
                    rest2)
                | _ =>
                  (.error (.InvalidSyntax
                    "Expected either '==' or '!=' after string in test call"),
                    rest2)
      match step with
      | (.error e, rem) => (.error e, rem)
      | (.ok res, rem) => testTailF (testGo o fuel) res rem

/-- The connective-handling tail of a `test` frame with its recursive
evaluator instantiated, exactly as it runs inside `testGo`. -/
def testTail (o : TestOracle) (fuel : Nat) (res : Bool)
    (rem : List String) : Except LashErrLow Bool × List String :=
  testTailF (testGo o fuel) res rem

/-- Top-level entry for a `test` invocation: the words in pop order with
fuel exceeding the word count (so fuel exhaustion is unreachable). -/
def testEval (o : TestOracle) (args : List String) :
    Except LashErrLow Bool :=
  (testGo o (args.length + 1) args).1

/-- `true` exactly on `InvalidSyntax` errors (the "syntax error" kind of
`src/error.rs`). -/
def isInvalidSyntax (r : Except LashErrLow Bool) : Bool :=
  match r with
  | .error (.InvalidSyntax _) => true
  | _ => false

/-- An oracle for which every OS probe fails or is false: no terminal,
no metadata, no existing paths, no access. -/
def oracle0 : TestOracle :=
  { isatty := fun _ => false
    meta := fun _ => none
    pathExists := fun _ => false
    accessR := fun _ => false
    accessW := fun _ => false
    accessX := fun _ => false }

/-- An oracle identical to `oracle0` except that the single path `f`
exists (used to exercise the binary file-predicate branches of `test`). -/
def oracleP : TestOracle :=
  { oracle0 with pathExists := fun s => decide (s = "f") }

/-! ## The line-editor validator (`src/comp.rs:239-373` and `496-514`) -/

/-- The error produced by `ShError::from_syntax` as used by
`check_balanced_delims` (spans dropped). -/
inductive ShError where
  | InvalidSyntax (msg : String)
  deriving DecidableEq, Repr

/-- Modelled from the spec: the `KEYWORDS` table of the token module
(`crate::interp::token::KEYWORDS`, not under `src/`): the reserved words
`if/then/elif/else/fi`, `for/while/until/select/do/done`,
`case/in/esac`. -/
def KEYWORDS : List String :=
  ["if", "then", "elif", "else", "fi", "for", "while", "until", "select",
   "do", "done", "case", "in", "esac"]

/-- The whitespace notion of Rust `split_whitespace` restricted to the
characters that occur in shell input (space, tab, newline, carriage
return). -/
def isWs (c : Char) : Bool :=
  c = ' ' || c = '\t' || c = '\n' || c = '\r'

/-- `checked_chars.split_whitespace().last()` (`src/comp.rs:252`). The
scanner's `checked_chars` buffer is carried most-recent-character-first,
so the last whitespace-separated word is the first run of non-whitespace
characters after skipping trailing whitespace, reversed back. -/
def lastWord (checked : List Char) : Option String :=
  let w := (checked.dropWhile isWs).takeWhile (fun c => !isWs c)
  if w.isEmpty then none else some (String.mk w.reverse)

/-- The inner quote loop (`src/comp.rs:282-296`): consume characters
until the matching unescaped quote; `some rest` when the closing quote
was found, `none` when input ended first. -/
def scanQuote (q : Char) : List Char → Option (List Char)
  | [] => none
  | c :: cs =>
    if c = '\\' then
      match cs with
      | [] => none
      | _ :: cs2 => scanQuote q cs2
    else if c = q then some cs
    else scanQuote q cs

/-- The inner parenthesis loop (`src/comp.rs:297-311`): entered after
pushing `'('`; consumes characters, pushing `'('` and popping on `')'`,
and stops (returning the stack and the remaining input) when after a pop
the top of the stack is no longer `'('`, or when input ends. -/
def scanParen (stack : List Char) : List Char → List Char × List Char
  | [] => (stack, [])
  | c :: cs =>
    if c = '\\' then
      match cs with
      | [] => (stack, [])
      | _ :: cs2 => scanParen stack cs2
    else if c = ')' then
      let stack2 := stack.tail
      if stack2.head? ≠ some '(' then (stack2, cs)
      else scanParen stack2 cs
    else if c = '(' then scanParen ('(' :: stack) cs
    else scanParen stack cs

/-- The keyword-accumulation loop (`src/comp.rs:312-322`): gather the
following alphanumeric/`_`/`-` characters. Returns the consumed
characters (in input order) and the remaining input. The Rust code
tests `char::is_alphanumeric`; shell input is ASCII, where it agrees
with `Char.isAlphanum`. -/
def takeKeywordChars : List Char → List Char × List Char
  | [] => ([], [])
  | c :: cs =>
    if c.isAlphanum || c = '_' || c = '-' then
      let (w, rest) := takeKeywordChars cs
      (c :: w, rest)
    else ([], c :: cs)

/-- The keyword-stack update of `src/comp.rs:324-355`, given the
completed word, the `is_command` flag and the current keyword stack. -/
def keywordUpdate (keyword : String) (isCommand : Bool)
    (kwStack : List String) : List String :=
  if isCommand &&
      (keyword = "if" || keyword = "while" || keyword = "for" ||
       keyword = "until" || keyword = "select" || keyword = "case") then
    keyword :: kwStack
  else if keyword = "fi" || keyword = "done" || keyword = "esac" then
    let expectation : List String :=
      if keyword = "fi" then ["if", "else"]
      else if keyword = "done" then ["do", "while", "until", "for", "select"]
      else ["in"]
    match kwStack with
    | top :: below => if top ∈ expectation then below else kwStack
    | [] => kwStack
  else if keyword = "then" || keyword = "do" || keyword = "in" then
    let expectation : List String :=
      if keyword = "then" then ["if", "elif"]
      else if keyword = "do" then ["in", "while", "until"]
      else ["case", "for", "select"]
    match kwStack with
    | top :: below =>
      if top ∈ expectation then
        if keyword ≠ "then" && keyword ≠ "do" then keyword :: below
        else kwStack
      else kwStack
    | [] => kwStack
  else kwStack

/-- The scanner loop of `check_balanced_delims` (`src/comp.rs:246-372`).
State: remaining input, delimiter stack, keyword stack, the
`checked_chars` buffer (most-recent-first) and the `is_command` flag.
The `Nat` argument is recursion fuel, one unit per loop iteration; the
wrapper supplies more fuel than there are characters, making the
exhaustion branch unreachable. Note which closers are recognized: only
`'}'` and `']'` reach the mismatch check — a bare `')'` falls through to
the final catch-all arm and is ignored (the `')' => '('` line inside the
`expected` match of the source is dead code). -/
def cbLoop : Nat → List Char → List Char → List String → List Char →
    Bool → Except ShError Bool
  | 0 => fun _ _ _ _ _ => .ok false
  | fuel + 1 => fun chars delimStack kwStack checked isCommand =>
    match chars with
    | [] =>
      if !delimStack.isEmpty then .ok false
      else if !kwStack.isEmpty then .ok false
      else .ok true
    | c :: rest =>
      if c = '\n' || c = ';' then
        cbLoop fuel rest delimStack kwStack (c :: checked) true
      else if c = ' ' then
        let isCommand2 :=
          match lastWord checked with
          | some w => if !(KEYWORDS.contains w) then false else isCommand
          | none => isCommand
        cbLoop fuel rest delimStack kwStack (c :: checked) isCommand2
      else if c = '\\' then
        cbLoop fuel (rest.drop 1) delimStack kwStack (c :: checked) isCommand
      else if c = '{' || c = '[' then
        cbLoop fuel rest (c :: delimStack) kwStack (c :: checked) isCommand
      else if c = '}' || c = ']' then
        let expected := if c = '}' then '{' else '['
        match delimStack with
        | top :: below =>
          if top = expected then
            cbLoop fuel rest below kwStack (c :: checked) isCommand
          else
            .error (.InvalidSyntax
              (String.push "Unmatched closing delimiter: " c))
        | [] =>
          .error (.InvalidSyntax
            (String.push "Unmatched closing delimiter: " c))
      else if c = '\'' || c = '"' then
        match scanQuote c rest with
        | some rest2 =>
          cbLoop fuel rest2 delimStack kwStack (c :: checked) isCommand
        | none =>
          cbLoop fuel [] (c :: delimStack) kwStack (c :: checked) isCommand
      else if c = '(' then
        let (delimStack2, rest2) := scanParen ('(' :: delimStack) rest
        cbLoop fuel rest2 delimStack2 kwStack (c :: checked) isCommand
      else if c.isAlphanum || c = '_' then
        let (w, rest2) := takeKeywordChars rest
        let keyword := String.mk (c :: w)
        let kwStack2 := keywordUpdate keyword isCommand kwStack
        cbLoop fuel rest2 delimStack kwStack2
          (c :: (w.reverse ++ checked)) isCommand
      else
        cbLoop fuel rest delimStack kwStack (c :: checked) isCommand

/-- `check_balanced_delims` (`src/comp.rs:239-373`). -/
def check_balanced_delims (input : String) : Except ShError Bool :=
  cbLoop (input.length + 1) input.data [] [] [] true

/-- `rustyline::validate::ValidationResult` as produced by the
`Validator` impl. -/
inductive ValidationResult where
  | Valid
  | Incomplete
  | Invalid (msg : String)
  deriving DecidableEq, Repr

/-- `Validator::validate` for `OxHelper` (`src/comp.rs:496-514`):
`Ok(true)` is `Valid`, `Ok(false)` is `Incomplete`, a syntax error is
`Invalid` with its message. -/
def validate (input : String) : ValidationResult :=
  match check_balanced_delims input with
  | .ok true => .Valid
  | .ok false => .Incomplete
  | .error (.InvalidSyntax msg) => .Invalid msg

/-! ## Output emission of the `echo` builtin (`src/builtin.rs:404-431`) -/

/-- The two `ExecCtx` flag bits that drive `echo`'s process handling
(`ExecFlags::NO_FORK` and `ExecFlags::BACKGROUND`). -/
structure ExecFlags where
  noFork : Bool := false
  background : Bool := false
  deriving DecidableEq, Repr

/-- The process-level events of `echo`'s output stage. -/
inductive EchoEv where
  | parentWrite
  | forkCall
  | childWrite
  | insertJob
  | handleFg
  deriving DecidableEq, Repr

/-- The event trace of `echo`'s output stage (`src/builtin.rs:404-431`),
after the redirections have been activated. The source first writes the
output in the parent when `NO_FORK` is set, and then — with no `else`
and no early return — *always* calls `fork()`; the child writes the
output and exits, while the parent registers the job (background) or
foregrounds it. -/
def echoEmitTrace (flags : ExecFlags) : List EchoEv :=
  (if flags.noFork then [.parentWrite] else []) ++
    [.forkCall, .childWrite] ++
    (if flags.background then [.insertJob] else [.handleFg])

/-- How many times the `echo` output is written. -/
def echoWriteCount (tr : List EchoEv) : Nat :=
  tr.countP (fun e => e = .parentWrite || e = .childWrite)

/-! ## The subshell executor (`src/execute/subshell.rs`) -/

/-- Modelled from the spec: the `Slash` interpreter state
(`crate::Slash`, not under `src/`) as used by the subshell executor —
variable store, positional parameters, last exit status, and the
`in_pipe` bit of the execution context. -/
structure Slash where
  vars : List (String × String)
  posParams : List String
  code : Nat
  inPipe : Bool
  deriving DecidableEq, Repr

/-- Modelled from the spec: `vars_mut().reset_params()` — clear the
positional parameters. -/
def Slash.reset_params (s : Slash) : Slash :=
  { s with posParams := [] }

/-- Modelled from the spec: `vars_mut().pos_param_pushback(arg)` —
append one positional parameter. -/
def Slash.pos_param_pushback (s : Slash) (arg : String) : Slash :=
  { s with posParams := s.posParams ++ [arg] }

/-- `handle_internal_subshell` (`src/execute/subshell.rs:69-79`): take a
snapshot, reset the positional parameters, push the argv, run the body
(`dispatch::exec_input` is outside `src/` and is a parameter here), then
restore the snapshot wholesale. Redirection activation touches only file
descriptors and is omitted from the state. -/
def handle_internal_subshell (runBody : Slash → Except ShellError Slash)
    (argv : List String) (slash : Slash) : Except ShellError Slash :=
  let snapshot := slash
  let s1 := slash.reset_params
  let s2 := argv.foldl Slash.pos_param_pushback s1
  match runBody s2 with
  | .error e => .error e
  | .ok _ => .ok snapshot

/-- The internal (no shebang) path of `exec_subshell`
(`src/execute/subshell.rs:11-32`): run `handle_internal_subshell`, then
`slash.set_code(0)` — the exit status is unconditionally set to 0. -/
def exec_subshell (runBody : Slash → Except ShellError Slash)
    (argv : List String) (slash : Slash) : Except ShellError Slash :=
  match handle_internal_subshell runBody argv slash with
  | .error e => .error e
  | .ok s => .ok { s with code := 0 }

/-- The process-level events of `handle_external_subshell`. -/
inductive ExtEv where
  | writeMemfd
  | activateRedirs
  | execveParent
  | forkCall
  | execveChild
  | waitJob
  | closeMemfd
  deriving DecidableEq, Repr

/-- The event trace of `handle_external_subshell`
(`src/execute/subshell.rs:34-67`): the script is written into a memfd
and redirections are activated; then, when the context is in a pipeline
(`slash.in_pipe()`), the function calls `execve` directly in the calling
process — no fork — replacing the shell image; otherwise it forks, the
child `execve`s the memfd script, and the parent waits on the job via
`handle_fg` and closes the memfd. -/
def handle_external_subshell (inPipe : Bool) : List ExtEv :=
  [.writeMemfd, .activateRedirs] ++
    (if inPipe then [.execveParent]
     else [.forkCall, .execveChild, .waitJob, .closeMemfd])

/-- Which process performs an `execve` in a trace: `true` exactly when
the parent (the calling shell process) replaces its own image. -/
def execveInParent (tr : List ExtEv) : Bool :=
  tr.contains .execveParent

/-! ## The `cd` / `change_dir` sample inputs -/

/-- A body that ends with a failing command: it leaves the last exit
status at 1. -/
def bodyFail1 : Slash → Except ShellError Slash :=
  fun s => .ok { s with code := 1 }

/-- A concrete pre-subshell state. -/
def slash0 : Slash :=
  { vars := [("A", "1")], posParams := ["p"], code := 0, inPipe := false }

/-! ## Shared association-list lemmas -/

theorem lookupA_eraseA {α : Type} (m : List (String × α)) (k k' : String) :
    lookupA (eraseA m k) k' = if k = k' then none else lookupA m k' := by
  induction m with
  | nil => simp [eraseA, lookupA]
  | cons p t ih =>
    obtain ⟨a, b⟩ := p
    by_cases hak : a = k <;> by_cases hk' : k = k' <;>
      simp_all [eraseA, lookupA]

theorem lookupA_insertA {α : Type} (m : List (String × α)) (k : String)
    (v : α) (k' : String) :
    lookupA (insertA m k v) k' = if k = k' then some v else lookupA m k' := by
  simp only [insertA, lookupA, lookupA_eraseA]
  by_cases h : k = k' <;> simp [h]

theorem mem_of_mem_eraseA {α : Type} {m : List (String × α)} {k : String}
    {p : String × α} (h : p ∈ eraseA m k) : p ∈ m := by
  induction m with
  | nil => simp [eraseA] at h
  | cons q t ih =>
    obtain ⟨a, b⟩ := q
    by_cases hak : a = k
    · simp only [eraseA, if_pos hak] at h
      exact List.mem_cons_of_mem _ (ih h)
    · simp only [eraseA, if_neg hak, List.mem_cons] at h
      rcases h with h | h
      · exact h ▸ List.mem_cons_self _ _
      · exact List.mem_cons_of_mem _ (ih h)

theorem lookupA_isSome_of_mem {α : Type} {m : List (String × α)}
    {k : String} {v : α} (h : (k, v) ∈ m) : (lookupA m k).isSome := by
  induction m with
  | nil => simp at h
  | cons q t ih =>
    obtain ⟨a, b⟩ := q
    rcases List.mem_cons.mp h with h | h
    · obtain ⟨rfl, rfl⟩ := Prod.mk.injEq .. ▸ h
      simp [lookupA]
    · by_cases hak : a = k
      · simp [lookupA, hak]
      · simpa [lookupA, hak] using ih h

/-! ## C1 — `cd` / `change_dir` and the PWD/OLDPWD update -/

/-- C1 counterexample: in an environment with `PWD=/home/u` and
`OLDPWD=/old`, a *failing* directory change nevertheless removes `PWD`
and overwrites `OLDPWD` — the claimed atomicity ("if the directory
change fails, both PWD and OLDPWD are unchanged") is false, because
`change_dir` mutates the environment before attempting the chdir. -/
theorem changeDir_not_atomic_counterexample :
    (envPwd.change_dir none).1 = .error (.execFail "chdir failed" 1) ∧
    lookupA (envPwd.change_dir none).2.env_vars "PWD" = none ∧
    lookupA (envPwd.change_dir none).2.env_vars "OLDPWD" = some "/home/u" ∧
    (envPwd.change_dir none).2.env_vars ≠ envPwd.env_vars :=
  ⟨rfl, rfl, rfl, by decide⟩

/-- C1 amended: a successful `change_dir` leaves `OLDPWD` equal to the
prior `PWD` and `PWD` equal to the new current directory; a failing one
returns an error but has already removed `PWD` and set `OLDPWD` to the
prior `PWD` — the update is not atomic. (The prior `PWD` value and the
new directory are assumed free of surrounding double quotes and
nonempty, so `export_variable`'s quote-trimming and empty-delete paths
do not interfere.) -/
theorem changeDir_update (env : ShellEnv) (p d : String)
    (hp : lookupA env.env_vars "PWD" = some p)
    (hpt : trimQuotes p = p) (hpne : p ≠ "")
    (hdt : trimQuotes d = d) (hdne : d ≠ "") :
    ((env.change_dir (some d)).1 = .ok () ∧
      lookupA (env.change_dir (some d)).2.env_vars "OLDPWD" = some p ∧
      lookupA (env.change_dir (some d)).2.env_vars "PWD" = some d) ∧
    ((env.change_dir none).1 = .error (.execFail "chdir failed" 1) ∧
      lookupA (env.change_dir none).2.env_vars "PWD" = none ∧
      lookupA (env.change_dir none).2.env_vars "OLDPWD" = some p) := by
  unfold ShellEnv.change_dir
  simp only [hp, Option.getD_some, ShellEnv.export_variable, hpt, hdt]
  rw [if_neg hpne, if_neg hdne]
  simp [lookupA_insertA, lookupA_eraseA, hp]

/-- C1 witness: the amended statement at a concrete environment. -/
theorem changeDir_update_witness :
    ((envPwd.change_dir (some "/tmp")).1 = .ok () ∧
      lookupA (envPwd.change_dir (some "/tmp")).2.env_vars "OLDPWD" =
        some "/home/u" ∧
      lookupA (envPwd.change_dir (some "/tmp")).2.env_vars "PWD" =
        some "/tmp") ∧
    ((envPwd.change_dir none).1 = .error (.execFail "chdir failed" 1) ∧
      lookupA (envPwd.change_dir none).2.env_vars "PWD" = none ∧
      lookupA (envPwd.change_dir none).2.env_vars "OLDPWD" =
        some "/home/u") :=
  changeDir_update envPwd "/home/u" "/tmp" rfl rfl (by decide) rfl (by decide)

/-! ## C2 — `echo` emission under `NO_FORK` -/

/-- C2: with `NO_FORK` set the `echo` builtin writes the output in the
parent and then still forks a child that writes it again — two
emissions and an unconditional `fork`, contradicting the claim that the
output is emitted exactly once and that no fork happens under
`NO_FORK`. Without `NO_FORK` the output is written once, by the forked
child. -/
theorem echo_nofork_double_write :
    echoWriteCount (echoEmitTrace { noFork := true }) = 2 ∧
    EchoEv.forkCall ∈ echoEmitTrace { noFork := true } ∧
    echoWriteCount (echoEmitTrace {}) = 1 ∧
    EchoEv.forkCall ∈ echoEmitTrace {} := by
  decide

/-! ## C3 — alias/function name disjointness -/

/-- C3 counterexample: with the `NO_ALIAS` flag set, `set_function`
succeeds over the existing alias `x` (its collision check goes through
`get_alias`, which is blind while `NO_ALIAS` is set), so `x` becomes
simultaneously an alias and a function — the claim's "regardless of the
environment's flag state" is false. -/
theorem alias_function_clash_counterexample :
    envNoAlias.set_function "x" (.mk 0) =
      .ok { envNoAlias with functions := [("x", .mk 0)] } ∧
    lookupA envNoAlias.aliases "x" = some "y" ∧
    disjointNames { envNoAlias with functions := [("x", .mk 0)] } = false :=
  ⟨rfl, rfl, rfl⟩

/-- C3 amended: `set_alias` over an existing function name always fails
with the name-in-use error; `set_function` over an existing alias name
fails with the name-in-use error *provided the `NO_ALIAS` flag is
clear*; and in any environment whose `NO_ALIAS` flag is clear, every
sequence of `set_alias`/`set_function` operations preserves
alias/function name disjointness. (With `NO_ALIAS` set the alias table
is invisible to `set_function` and the invariant can be broken.) -/
theorem applyOp_flags (e : ShellEnv) (op : EnvOp) :
    (applyOp e op).flags = e.flags := by
  cases op with
  | setAlias k v =>
    simp only [applyOp, ShellEnv.set_alias]
    by_cases h : (e.get_function k).isSome = true
    · rw [if_pos h]
    · rw [if_neg h]
  | setFunc n b =>
    simp only [applyOp, ShellEnv.set_function]
    by_cases h : (e.get_alias n).isSome = true
    · rw [if_pos h]
    · rw [if_neg h]

theorem applyOp_disjoint (e : ShellEnv) (op : EnvOp)
    (hf : e.flags.noAlias = false) (hd : disjointNames e = true) :
    disjointNames (applyOp e op) = true := by
  cases op with
  | setAlias k v =>
    simp only [applyOp, ShellEnv.set_alias]
    by_cases h : (e.get_function k).isSome = true
    · rw [if_pos h]; exact hd
    · rw [if_neg h]
      simp only [disjointNames, List.all_eq_true] at hd ⊢
      intro p hp
      simp only [insertA, List.mem_cons] at hp
      rcases hp with rfl | hp
      · cases hfk : lookupA e.functions k with
        | none => simp [hfk]
        | some nd => exact absurd (by simp [ShellEnv.get_function, hfk]) h
      · exact hd p (mem_of_mem_eraseA hp)
  | setFunc n b =>
    simp only [applyOp, ShellEnv.set_function]
    by_cases h : (e.get_alias n).isSome = true
    · rw [if_pos h]; exact hd
    · rw [if_neg h]
      simp only [ShellEnv.get_alias, hf, Bool.false_eq_true, if_false] at h
      simp only [disjointNames, List.all_eq_true] at hd ⊢
      intro p hp
      rw [lookupA_insertA]
      by_cases hn : n = p.1
      · exfalso
        obtain ⟨p1, p2⟩ := p
        simp only at hn
        subst hn
        exact h (lookupA_isSome_of_mem hp)
      · simpa [hn] using hd p hp

theorem alias_function_disjoint (env : ShellEnv) :
    (∀ k v, (env.get_function k).isSome = true →
      env.set_alias k v =
        .error ("The name `" ++ k ++ "` is already being used as a function")) ∧
    (∀ n b, env.flags.noAlias = false → (lookupA env.aliases n).isSome = true →
      env.set_function n b =
        .error (.parseErr
          ("The name `" ++ n ++ "` is already being used as an alias"))) ∧
    (∀ ops, env.flags.noAlias = false → disjointNames env = true →
      disjointNames (applyOps env ops) = true) := by
  refine ⟨?_, ?_, ?_⟩
  · intro k v h
    simp only [ShellEnv.set_alias, if_pos h]
  · intro n b hflag h
    have hg : (env.get_alias n).isSome = true := by
      simp [ShellEnv.get_alias, hflag, h]
    simp only [ShellEnv.set_function, if_pos hg]
  · intro ops
    induction ops generalizing env with
    | nil => intro _ hdisj; simpa [applyOps] using hdisj
    | cons op rest ih =>
      intro hflag hdisj
      have h1 : (applyOp env op).flags.noAlias = false := by
        rw [applyOp_flags]; exact hflag
      have h2 := applyOp_disjoint env op hflag hdisj
      simpa [applyOps] using ih (applyOp env op) h1 h2

/-- C3 witness: the amended statement discharged at concrete inputs:
an alias over the function `f` fails, a function over the alias `x`
fails in a flag-clear environment, and a four-operation sequence
preserves disjointness from the empty environment. -/
theorem alias_function_disjoint_witness :
    ({ env0 with functions := [("f", .mk 1)] } : ShellEnv).set_alias "f" "v" =
      .error "The name `f` is already being used as a function" ∧
    ({ env0 with aliases := [("x", "y")] } : ShellEnv).set_function "x" (.mk 2) =
      .error (.parseErr "The name `x` is already being used as an alias") ∧
    disjointNames (applyOps env0
      [.setAlias "a" "1", .setFunc "a" (.mk 3),
       .setFunc "g" (.mk 4), .setAlias "g" "2"]) = true :=
  ⟨(alias_function_disjoint _).1 "f" "v" rfl,
   (alias_function_disjoint _).2.1 "x" (.mk 2) rfl rfl,
   (alias_function_disjoint env0).2.2 _ rfl rfl⟩

/-! ## C4 — `export` / `get_variable` round trip -/

/-- C4 counterexample: exporting the nonempty value `"` (a single
double-quote character) quote-trims to the empty string and *deletes*
the name, so the subsequent lookup returns nothing rather than the
value; and exporting the empty value for the name `1` does remove it
from both stores, yet the lookup still returns the positional
parameter `1`, not nothing. -/
theorem export_get_counterexample :
    (env0.export_variable "x" "\"").get_variable "x" = none ∧
    ("\"" : String) ≠ "" ∧
    (envParam.export_variable "1" "").get_variable "1" = some "arg" :=
  ⟨rfl, by decide, rfl⟩

/-- C4 amended: for a name that is not a positional parameter and a
nonempty value free of surrounding double quotes, exporting and then
looking up returns the value; exporting the empty value removes the
name from both the shell-variable and env-var stores, and the lookup
then returns nothing. -/
theorem export_get_roundtrip (env : ShellEnv) (name v : String)
    (hvt : trimQuotes v = v) (hvne : v ≠ "")
    (hpar : lookupA env.parameters name = none) :
    (env.export_variable name v).get_variable name = some v ∧
    lookupA (env.export_variable name "").«variables» name = none ∧
    lookupA (env.export_variable name "").env_vars name = none ∧
    (env.export_variable name "").get_variable name = none := by
  have hempty : trimQuotes "" = "" := rfl
  unfold ShellEnv.export_variable
  simp only [hvt, hempty, if_neg hvne, if_pos rfl]
  simp [ShellEnv.get_variable, lookupA_insertA, lookupA_eraseA, hpar]

/-- C4 witness: the amended statement at the empty environment with
name `x` and value `hello`. -/
theorem export_get_roundtrip_witness :
    (env0.export_variable "x" "hello").get_variable "x" = some "hello" ∧
    lookupA (env0.export_variable "x" "").«variables» "x" = none ∧
    lookupA (env0.export_variable "x" "").env_vars "x" = none ∧
    (env0.export_variable "x" "").get_variable "x" = none :=
  export_get_roundtrip env0 "x" "hello" rfl (by decide) rfl

/-! ## C5 — internal subshell status and state restore -/

/-- C5 counterexample: an internal subshell whose body ends with a
failing command (last status 1) still yields exit status 0, because
`exec_subshell` calls `set_code(0)` after restoring the snapshot — the
claimed "exit status is the status of the last command executed inside
the subshell body" is false. -/
theorem subshell_status_counterexample :
    exec_subshell bodyFail1 [] slash0 = .ok { slash0 with code := 0 } ∧
    bodyFail1 (slash0.reset_params) = .ok { slash0.reset_params with code := 1 } ∧
    (0 : Nat) ≠ 1 :=
  ⟨rfl, rfl, by decide⟩

/-- C5 amended: for every internal subshell whose body execution
succeeds, the returned state is exactly the snapshot taken on entry with
the exit status forced to 0 — the body's own last-command status is
discarded, and every other field (variables, positional parameters) is
restored from the snapshot. -/
theorem subshell_internal_restore
    (runBody : Slash → Except ShellError Slash) (argv : List String)
    (slash s' : Slash)
    (h : runBody (argv.foldl Slash.pos_param_pushback slash.reset_params) =
      .ok s') :
    exec_subshell runBody argv slash = .ok { slash with code := 0 } := by
  unfold exec_subshell handle_internal_subshell
  simp only [h]

/-- C5 witness: the amended statement at a concrete state and a body
that ends with status 1. -/
theorem subshell_internal_restore_witness :
    exec_subshell bodyFail1 ["a"] slash0 = .ok { slash0 with code := 0 } :=
  subshell_internal_restore bodyFail1 ["a"] slash0
    { slash0 with posParams := ["a"], code := 1 } rfl

/-! ## C6 — external subshell fork/execve discipline -/

/-- C6 counterexample: when the execution context is inside a pipeline
(`in_pipe` true), `handle_external_subshell` calls `execve` directly in
the calling shell process, with no fork and no job-table wait — the
claim that the execve happens only inside a freshly forked child is
false. -/
theorem ext_subshell_counterexample :
    execveInParent (handle_external_subshell true) = true ∧
    ExtEv.forkCall ∉ handle_external_subshell true ∧
    ExtEv.waitJob ∉ handle_external_subshell true := by
  decide

/-- C6 amended: when the context is not in a pipeline, the execve of
the memfd script happens only inside a freshly forked child (the fork
precedes it in the trace, the parent never execves) and the parent
waits via the job table and closes the memfd; when `in_pipe` is set,
the calling process itself execves the memfd script, replacing the
shell image without forking. -/
theorem ext_subshell_fork_discipline :
    handle_external_subshell false =
      [.writeMemfd, .activateRedirs, .forkCall, .execveChild, .waitJob,
       .closeMemfd] ∧
    execveInParent (handle_external_subshell false) = false ∧
    handle_external_subshell true =
      [.writeMemfd, .activateRedirs, .execveParent] := by
  refine ⟨rfl, by decide, rfl⟩

/-! ## C7 — validator classification of unmatched closers -/

/-- C7: the validator's claimed behaviors on the spec's three examples.
`echo )` returns `Valid`, not `Invalid`: in `check_balanced_delims` only
`'}'` and `']'` reach the unmatched-closer check, while a bare `')'`
falls through the match's catch-all arm and is ignored (the
`')' => '('` line of the `expected` table is dead code). The
`Incomplete` (non-empty stack) and `Valid` (both stacks empty) behaviors
hold, as does `Invalid` for an unmatched `}`. -/
theorem validator_unmatched_closer :
    validate "echo )" = .Valid ∧
    validate "if true; then echo hi" = .Incomplete ∧
    validate "if true; then echo hi; fi" = .Valid ∧
    validate "echo \x7d" = .Invalid "Unmatched closing delimiter: \x7d" :=
  ⟨rfl, rfl, rfl, rfl⟩

/-! ## C8 — `test` missing-operand error kind -/

/-- C8 counterexample: `test -n` (a unary flag with no operand) fails
with `ExecFailed "Missing operand in this test call"`, which is *not*
the `InvalidSyntax` ("syntax error") kind the claim requires. -/
theorem test_missing_operand_counterexample :
    testEval oracle0 ["-n"] =
      .error (.ExecFailed "Missing operand in this test call") ∧
    isInvalidSyntax (testEval oracle0 ["-n"]) = false :=
  ⟨rfl, rfl⟩

set_option maxHeartbeats 2000000 in
/-- A `test` frame whose first word is an integer and whose comparison
flag has no right operand fails with the `ExecFailed` missing-operand
error (fuel abstract so only one frame unfolds). -/
theorem testGo_int_missing (o : TestOracle) (fuel : Nat) (x c : String)
    (hx : is_int x = true)
    (hc : c ∈ (["-eq", "-ge", "-gt", "-le", "-lt", "-ne"] : List String)) :
    testGo o (fuel + 1) [x, c] =
      (.error (.ExecFailed "Missing operand in this test call"), []) := by
  fin_cases hc <;>
  · simp only [testGo, List.getLast?_cons_cons, List.getLast?_singleton,
      Option.some.injEq, String.reduceEq, if_false, reduceIte]
    split <;>
    · rename_i heq
      split at heq
      all_goals try exact absurd hx (by decide)
      · simp only [hx, reduceIte, do_cmp] at heq
        simp_all

set_option maxHeartbeats 2000000 in
/-- A `test` frame whose first word is a plain string (no predicate
flag, not an integer, not `=`) followed by `=` or `!=` with no right
operand fails with the `ExecFailed` missing-operand error. -/
theorem testGo_str_missing (o : TestOracle) (fuel : Nat) (x c : String)
    (hmem : x ∉ (["!", "-t", "-b", "-c", "-d", "-f", "-g", "-G", "-h", "-L",
      "-k", "-N", "-O", "-p", "-s", "-S", "-u", "-n", "-z", "-e",
      "-r", "-w", "-x"] : List String))
    (hint : is_int x = false) (hne : x ≠ "=")
    (hc : c ∈ (["=", "!="] : List String)) :
    testGo o (fuel + 1) [x, c] =
      (.error (.ExecFailed "Missing operand in this test call"), []) := by
  fin_cases hc <;>
  · simp only [testGo, List.getLast?_cons_cons, List.getLast?_singleton,
      Option.some.injEq, String.reduceEq, if_false, reduceIte]
    split <;>
    · rename_i heq
      split at heq
      all_goals try exact absurd (by decide) hmem
      · simp only [hint, hne, Bool.false_eq_true, Bool.and_false, reduceIte,
          do_cmp, List.head?_cons, List.head?_nil, List.drop] at heq
        simp_all

set_option maxHeartbeats 2000000 in
/-- A `test` frame whose first word is an existing path followed by
`-ef` or `-ot` with no right operand fails with the `ExecFailed`
missing-operand error (the file-predicate guard admits these flags and
`do_cmp` receives no right operand). -/
theorem testGo_file_missing (o : TestOracle) (fuel : Nat) (p c : String)
    (hmem : p ∉ (["!", "-t", "-b", "-c", "-d", "-f", "-g", "-G", "-h", "-L",
      "-k", "-N", "-O", "-p", "-s", "-S", "-u", "-n", "-z", "-e",
      "-r", "-w", "-x"] : List String))
    (hint : is_int p = false) (hpath : is_path o p = true)
    (hc : c ∈ (["-ef", "-ot"] : List String)) :
    testGo o (fuel + 1) [p, c] =
      (.error (.ExecFailed "Missing operand in this test call"), []) := by
  fin_cases hc <;>
  · simp only [testGo, List.getLast?_cons_cons, List.getLast?_singleton,
      Option.some.injEq, String.reduceEq, if_false, reduceIte]
    split <;>
    · rename_i heq
      split at heq
      all_goals try exact absurd (by decide) hmem
      · simp only [hint, hpath, Bool.false_eq_true, Bool.and_true,
          Bool.or_false, Bool.false_or, reduceIte, do_cmp,
          List.head?_cons, List.head?_nil, List.drop] at heq
        simp_all

set_option maxHeartbeats 2000000 in
/-- A `test` frame whose first word is a plain string followed by `-nt`
never reaches the file-predicate handler: the guard
(`src/builtin.rs:148`) tests the undashed word `"nt"`, so `-nt` falls
into the string branch and fails with the `InvalidSyntax` message about
`==`/`!=` — regardless of whether the left operand is an existing
path. -/
theorem testGo_nt_guard (o : TestOracle) (fuel : Nat) (p : String)
    (hmem : p ∉ (["!", "-t", "-b", "-c", "-d", "-f", "-g", "-G", "-h", "-L",
      "-k", "-N", "-O", "-p", "-s", "-S", "-u", "-n", "-z", "-e",
      "-r", "-w", "-x"] : List String))
    (hint : is_int p = false) (hne : p ≠ "=") :
    testGo o (fuel + 1) [p, "-nt"] =
      (.error (.InvalidSyntax
        "Expected either '==' or '!=' after string in test call"), []) := by
  simp only [testGo, List.getLast?_cons_cons, List.getLast?_singleton,
    Option.some.injEq, String.reduceEq, if_false, reduceIte]
  split <;>
  · rename_i heq
    split at heq
    all_goals try exact absurd (by decide) hmem
    · simp only [hint, hne, Bool.false_eq_true, Bool.or_false, Bool.or_self,
        Bool.and_false, reduceIte, List.head?_cons, List.head?_nil,
        List.drop] at heq
      simp_all

set_option maxHeartbeats 2000000 in
/-- A `test` frame whose first word is *not* an existing path followed
by `-ef` or `-ot` also never reaches the file-predicate handler (the
guard requires `is_path`), and instead fails in the string branch with
the `InvalidSyntax` message about `==`/`!=`. -/
theorem testGo_file_nonpath (o : TestOracle) (fuel : Nat) (p c : String)
    (hmem : p ∉ (["!", "-t", "-b", "-c", "-d", "-f", "-g", "-G", "-h", "-L",
      "-k", "-N", "-O", "-p", "-s", "-S", "-u", "-n", "-z", "-e",
      "-r", "-w", "-x"] : List String))
    (hint : is_int p = false) (hne : p ≠ "=") (hpath : is_path o p = false)
    (hc : c ∈ (["-ef", "-ot"] : List String)) :
    testGo o (fuel + 1) [p, c] =
      (.error (.InvalidSyntax
        "Expected either '==' or '!=' after string in test call"), []) := by
  fin_cases hc <;>
  · simp only [testGo, List.getLast?_cons_cons, List.getLast?_singleton,
      Option.some.injEq, String.reduceEq, if_false, reduceIte]
    split <;>
    · rename_i heq
      split at heq
      all_goals try exact absurd (by decide) hmem
      · simp only [hint, hne, hpath, Bool.false_eq_true, Bool.and_true,
          Bool.or_false, Bool.false_or, Bool.false_and, reduceIte,
          List.head?_cons, List.head?_nil, List.drop] at heq
        simp_all

/-- C8 amended: a unary predicate flag with no operand, an integer
followed by a comparison flag with no right operand, a plain string
followed by `=`/`!=` with no right operand, and an existing path
followed by `-ef`/`-ot` with no right operand all fail with the
`ExecFailed` error `"Missing operand in this test call"` — an
execution-failure kind, not an `InvalidSyntax` (syntax) error. The
remaining file-predicate cases do not even report a missing operand:
`-nt` never reaches its handler (the guard at `src/builtin.rs:148`
tests the undashed word `"nt"`), and `-ef`/`-ot` whose left operand is
not an existing path fall into the string branch; both instead fail
with `InvalidSyntax "Expected either '==' or '!=' after string in test
call"`. -/
theorem test_missing_operand (o : TestOracle) :
    (∀ f, f ∈ (["-t", "-b", "-c", "-d", "-f", "-g", "-G", "-h", "-L",
        "-k", "-N", "-O", "-p", "-s", "-S", "-u", "-n", "-z", "-e",
        "-r", "-w", "-x"] : List String) →
      testEval o [f] =
        .error (.ExecFailed "Missing operand in this test call")) ∧
    (∀ x c, is_int x = true →
      c ∈ (["-eq", "-ge", "-gt", "-le", "-lt", "-ne"] : List String) →
      testEval o [x, c] =
        .error (.ExecFailed "Missing operand in this test call")) ∧
    (∀ x c, x ∉ (["!", "-t", "-b", "-c", "-d", "-f", "-g", "-G", "-h",
        "-L", "-k", "-N", "-O", "-p", "-s", "-S", "-u", "-n", "-z", "-e",
        "-r", "-w", "-x"] : List String) →
      is_int x = false → x ≠ "=" → c ∈ (["=", "!="] : List String) →
      testEval o [x, c] =
        .error (.ExecFailed "Missing operand in this test call")) ∧
    (∀ p c, p ∉ (["!", "-t", "-b", "-c", "-d", "-f", "-g", "-G", "-h",
        "-L", "-k", "-N", "-O", "-p", "-s", "-S", "-u", "-n", "-z", "-e",
        "-r", "-w", "-x"] : List String) →
      is_int p = false → is_path o p = true →
      c ∈ (["-ef", "-ot"] : List String) →
      testEval o [p, c] =
        .error (.ExecFailed "Missing operand in this test call")) ∧
    (∀ p, p ∉ (["!", "-t", "-b", "-c", "-d", "-f", "-g", "-G", "-h",
        "-L", "-k", "-N", "-O", "-p", "-s", "-S", "-u", "-n", "-z", "-e",
        "-r", "-w", "-x"] : List String) →
      is_int p = false → p ≠ "=" →
      testEval o [p, "-nt"] =
        .error (.InvalidSyntax
          "Expected either '==' or '!=' after string in test call")) ∧
    (∀ p c, p ∉ (["!", "-t", "-b", "-c", "-d", "-f", "-g", "-G", "-h",
        "-L", "-k", "-N", "-O", "-p", "-s", "-S", "-u", "-n", "-z", "-e",
        "-r", "-w", "-x"] : List String) →
      is_int p = false → p ≠ "=" → is_path o p = false →
      c ∈ (["-ef", "-ot"] : List String) →
      testEval o [p, c] =
        .error (.InvalidSyntax
          "Expected either '==' or '!=' after string in test call")) := by
  refine ⟨?_, ?_, ?_, ?_, ?_, ?_⟩
  · intro f hf
    fin_cases hf <;> rfl
  · intro x c hx hc
    show (testGo o (2 + 1) [x, c]).1 =
      .error (.ExecFailed "Missing operand in this test call")
    rw [testGo_int_missing o 2 x c hx hc]
  · intro x c hmem hint hne hc
    show (testGo o (2 + 1) [x, c]).1 =
      .error (.ExecFailed "Missing operand in this test call")
    rw [testGo_str_missing o 2 x c hmem hint hne hc]
  · intro p c hmem hint hpath hc
    show (testGo o (2 + 1) [p, c]).1 =
      .error (.ExecFailed "Missing operand in this test call")
    rw [testGo_file_missing o 2 p c hmem hint hpath hc]
  · intro p hmem hint hne
    show (testGo o (2 + 1) [p, "-nt"]).1 =
      .error (.InvalidSyntax
        "Expected either '==' or '!=' after string in test call")
    rw [testGo_nt_guard o 2 p hmem hint hne]
  · intro p c hmem hint hne hpath hc
    show (testGo o (2 + 1) [p, c]).1 =
      .error (.InvalidSyntax
        "Expected either '==' or '!=' after string in test call")
    rw [testGo_file_nonpath o 2 p c hmem hint hne hpath hc]

/-- C8 witness: the amended statement at `-n`, `5 -eq`, `abc =`, and —
with `oracleP`, whose only existing path is `f` — `f -ef` (missing
operand), `f -nt` (guard typo) and, with `oracle0`, `f -ef` (left
operand not a path). -/
theorem test_missing_operand_witness :
    testEval oracle0 ["-n"] =
      .error (.ExecFailed "Missing operand in this test call") ∧
    testEval oracle0 ["5", "-eq"] =
      .error (.ExecFailed "Missing operand in this test call") ∧
    testEval oracle0 ["abc", "="] =
      .error (.ExecFailed "Missing operand in this test call") ∧
    testEval oracleP ["f", "-ef"] =
      .error (.ExecFailed "Missing operand in this test call") ∧
    testEval oracleP ["f", "-nt"] =
      .error (.InvalidSyntax
        "Expected either '==' or '!=' after string in test call") ∧
    testEval oracle0 ["f", "-ef"] =
      .error (.InvalidSyntax
        "Expected either '==' or '!=' after string in test call") :=
  ⟨(test_missing_operand oracle0).1 "-n" (by decide),
   (test_missing_operand oracle0).2.1 "5" "-eq" (by decide) (by decide),
   (test_missing_operand oracle0).2.2.1 "abc" "=" (by decide) (by decide)
     (by decide) (by decide),
   (test_missing_operand oracleP).2.2.2.1 "f" "-ef" (by decide) (by decide)
     (by decide) (by decide),
   (test_missing_operand oracleP).2.2.2.2.1 "f" (by decide) (by decide)
     (by decide),
   (test_missing_operand oracle0).2.2.2.2.2 "f" "-ef" (by decide) (by decide)
     (by decide) (by decide) (by decide)⟩

/-! ## C9 — `test` short-circuit of `-a` / `-o` -/

/-- C9: the `test` evaluator short-circuits its logical connectives.
Whenever a frame's tail pops `-a` with the running result false, it
returns false at once with the remaining words untouched (for every
remaining word list — the right conjunct is never evaluated), and
dually `-o` with a true running result returns true at once. In
particular `test 1 -lt 2 -a 3 -gt 1` evaluates to true, and the
short-circuited results are independent of the oracle even when the
skipped words are `-d` predicates that would consult it. -/
theorem test_short_circuit :
    (∀ (o : TestOracle) (fuel : Nat) (rest : List String),
      testTail o fuel false ("-a" :: rest) = (.ok false, rest) ∧
      testTail o fuel true ("-o" :: rest) = (.ok true, rest)) ∧
    (∀ o : TestOracle,
      testEval o ["1", "-lt", "2", "-a", "3", "-gt", "1"] = .ok true) ∧
    (∀ o : TestOracle,
      testEval o ["1", "-eq", "2", "-a", "-d", "-d", "-d"] = .ok false) ∧
    (∀ o : TestOracle,
      testEval o ["1", "-lt", "2", "-o", "-d", "-d", "-d"] = .ok true) :=
  ⟨fun _ _ _ => ⟨rfl, rfl⟩, fun _ => rfl, fun _ => rfl, fun _ => rfl⟩

/-! ## C10 — `remove_variable` leaves `env_vars` intact -/

/-- C10: `remove_variable` deletes the name only from the shell-local
`variables` store: for any environment `remove_variable` leaves
`env_vars` (and every other field but `variables`) unchanged, and after
exporting a (quote-free, nonempty) value and then removing the name,
`get_variable` still returns the exported value — the lookup falls
through to the untouched `env_vars` store. -/
theorem remove_variable_frame (env : ShellEnv) (name v : String)
    (hvt : trimQuotes v = v) (hvne : v ≠ "") :
    (∀ (e : ShellEnv) (k : String),
      (e.remove_variable k).env_vars = e.env_vars ∧
      (e.remove_variable k).parameters = e.parameters) ∧
    lookupA ((env.export_variable name v).remove_variable name).«variables»
      name = none ∧
    ((env.export_variable name v).remove_variable name).get_variable name =
      some v := by
  refine ⟨fun e k => ⟨rfl, rfl⟩, ?_, ?_⟩
  · unfold ShellEnv.export_variable ShellEnv.remove_variable
    simp only [hvt, if_neg hvne]
    simp [lookupA_eraseA]
  · unfold ShellEnv.export_variable ShellEnv.remove_variable
      ShellEnv.get_variable
    simp only [hvt, if_neg hvne]
    simp [lookupA_eraseA, lookupA_insertA]

/-- C10 witness: the statement at the empty environment, name `x`,
value `v`. -/
theorem remove_variable_frame_witness :
    ((env0.export_variable "x" "v").remove_variable "x").env_vars =
      (env0.export_variable "x" "v").env_vars ∧
    lookupA ((env0.export_variable "x" "v").remove_variable "x").«variables»
      "x" = none ∧
    ((env0.export_variable "x" "v").remove_variable "x").get_variable "x" =
      some "v" :=
  ⟨((remove_variable_frame env0 "x" "v" rfl (by decide)).1
      (env0.export_variable "x" "v") "x").1,
   (remove_variable_frame env0 "x" "v" rfl (by decide)).2.1,
   (remove_variable_frame env0 "x" "v" rfl (by decide)).2.2⟩
